import Mathlib

set_option maxHeartbeats 1000000

/-! Shallow embedding of the faucet front-end component (src/App.js):
address classification, decimals resolution, balance fetching, the
debounced fetch coordinator and the mint/claim submission flows.
The external chain-read, chain-write and wallet libraries are modelled
as oracles (`Chain`, `Wallet`); each operation returns its final
component state together with the ordered trace of state mutations and
network calls it performs. -/

/-- The fixed faucet contract address (App.js line 23). -/
def faucetAddress : String := "0x8A3832136896229C281Dd0760FEF8E4CE4718587"

/-- Model of the external library's zero (native-asset sentinel) address. -/
def zeroAddress : String := "0x0000000000000000000000000000000000000000"

/-- Hexadecimal digit test. -/
def isHexDigit (c : Char) : Bool :=
  c.isDigit || ('a' ≤ c && c ≤ 'f') || ('A' ≤ c && c ≤ 'F')

/-- Model of the external library's syntactic address check: the string is
0x followed by exactly 40 hexadecimal digits.  (Checksum validation of
mixed-case addresses is not modelled; every concrete address used below is
lowercase, on which the model and the library agree.) -/
def isAddress (a : String) : Bool :=
  match a.toList with
  | '0' :: 'x' :: rest => rest.length == 40 && rest.all isHexDigit
  | _ => false

/-- Model of JavaScript's toLowerCase for the ASCII strings handled here. -/
def toLowerStr (s : String) : String := String.mk (s.toList.map Char.toLower)

/-- The comparison tokenAddr.toLowerCase() === zeroAddress.toLowerCase()
used at App.js lines 62, 76 and 117. -/
def isZeroLike (a : String) : Bool := toLowerStr a == toLowerStr zeroAddress

/-- The component's isZeroAddress flag (App.js lines 59-62):
tokenAddress is truthy, syntactically valid, and equal to the zero address
up to case. -/
def isZeroAddress (tokenAddress : String) : Bool :=
  !(tokenAddress == "") && isAddress tokenAddress && isZeroLike tokenAddress

/-- Numeric value of a list of decimal digit characters (most significant
first); the empty list denotes 0, as BigInt of an empty string does. -/
def digitsVal (l : List Char) : Nat :=
  l.foldl (fun n c => n * 10 + (c.toNat - 48)) 0

/-- An exactly-represented decimal number: the value is num / 10 ^ exp.
Used to model JavaScript's numeric coercion of the amount field; the sign
of the value is the sign of num. -/
structure DecNum where
  num : Int
  exp : Nat
  deriving DecidableEq, Repr

/-- Model of JavaScript's string-to-number coercion, restricted to the
plain decimal literals relevant here: optional sign, integer digits,
optional fraction ("5", "-5", "+5", "5.", ".5", "1.25").  none models NaN.
Exponent, hexadecimal and Infinity forms are outside the modelled grammar. -/
def parseDecimal? (s : String) : Option DecNum :=
  let sg : Int × List Char :=
    match s.toList with
    | '-' :: r => (-1, r)
    | '+' :: r => (1, r)
    | cs => (1, cs)
  let ip := sg.2.takeWhile Char.isDigit
  let rest := sg.2.dropWhile Char.isDigit
  match rest with
  | [] => if ip.isEmpty then none else some ⟨sg.1 * digitsVal ip, 0⟩
  | '.' :: fr =>
      if fr.all Char.isDigit && !(ip.isEmpty && fr.isEmpty) then
        some ⟨sg.1 * (digitsVal ip * 10 ^ fr.length + digitsVal fr), fr.length⟩
      else none
  | _ => none

/-- Model of Number(s) as used by isNaN / parseFloat in the validator:
the empty string coerces to 0; otherwise a decimal literal parse. -/
def jsNumber? (s : String) : Option DecNum :=
  if s == "" then some ⟨0, 0⟩ else parseDecimal? s

/-- Model of the external library's parseUnits(value, decimals): the amount
string must match an optional minus sign, integer digits, an optional dot
and fraction digits (else the library throws, modelled as none); the result
is the signed integer value * 10 ^ decimals, with a fraction longer than
decimals rounded half-up at the decimals-th place exactly as the library's
digit-string manipulation computes it. -/
def parseUnits (value : String) (decimals : Nat) : Option Int :=
  let sg : Bool × List Char :=
    match value.toList with
    | '-' :: r => (true, r)
    | cs => (false, cs)
  let ip := sg.2.takeWhile Char.isDigit
  let rest := sg.2.dropWhile Char.isDigit
  let frac? : Option (List Char) :=
    match rest with
    | [] => some []
    | '.' :: r => if r.all Char.isDigit then some r else none
    | _ => none
  match frac? with
  | none => none
  | some frac0 =>
      let frac := (frac0.reverse.dropWhile (· == '0')).reverse
      let l := frac.length
      let mag : Nat :=
        if l ≤ decimals then
          digitsVal ip * 10 ^ decimals + digitsVal frac * 10 ^ (decimals - l)
        else
          digitsVal ip * 10 ^ decimals + digitsVal frac / 10 ^ (l - decimals) +
            (if '5' ≤ (frac.drop decimals).headD '0' then 1 else 0)
      some (if sg.1 then -(mag : Int) else (mag : Int))

/-- The component's state hooks (App.js lines 45-56); balance none models
the null balance, txHash and txType are empty strings when unset. -/
structure AppState where
  tokenAddress : String
  receiverAddress : String
  amount : String
  isMinting : Bool
  isClaiming : Bool
  error : String
  success : String
  txHash : String
  txType : String
  balance : Option Nat
  isLoadingBalance : Bool
  tokenDecimals : Nat
  deriving DecidableEq, Repr

/-- The initial hook values (App.js lines 45-56). -/
def initialState : AppState :=
  { tokenAddress := "", receiverAddress := "", amount := "",
    isMinting := false, isClaiming := false, error := "", success := "",
    txHash := "", txType := "", balance := none,
    isLoadingBalance := false, tokenDecimals := 18 }

/-- A network call made through the external chain or wallet client. -/
inductive ChainCall where
  /-- readContract(tokenAddr, ERC20ABI, "decimals") -/
  | readDecimals (token : String)
  /-- getBalance(account) -/
  | getBalance (account : String)
  /-- readContract(faucet, FaucetABI, "getTokenBalance", [token, holder]) -/
  | readGetTokenBalance (token holder : String)
  /-- writeContract(faucet, FaucetABI, "mint", [token, receiver, amount]) -/
  | writeMint (token receiver : String) (amount : Int)
  /-- writeContract(faucet, FaucetABI, "claim", [token, receiver, amount]) -/
  | writeClaim (token receiver : String) (amount : Int)
  /-- waitForTransactionReceipt(hash) -/
  | waitReceipt (hash : String)
  deriving DecidableEq, Repr

/-- One observable step of an operation: a state-setter invocation or a
network call, in program order. -/
inductive Event where
  | call (c : ChainCall)
  | setBalance (v : Option Nat)
  | setLoading (b : Bool)
  | setDecimals (d : Nat)
  | setError (m : String)
  | setSuccess (m : String)
  | setTxHash (h : String)
  | setTxType (t : String)
  | setMinting (b : Bool)
  | setClaiming (b : Bool)
  deriving DecidableEq, Repr

/-- Oracle for the external chain clients: each field gives the outcome of
one kind of network call; none models a thrown error (network failure or
wallet rejection), some v a successful response. -/
structure Chain where
  decimalsResult : String → Option Nat
  getBalanceResult : String → Option Nat
  getTokenBalanceResult : String → String → Option Nat
  mintResult : String → String → Int → Option String
  claimResult : String → String → Int → Option String
  waitReceiptOk : String → Bool

/-- The wallet-connection boundary is external; per the component contract
a signing client is obtainable iff a wallet provider is available. -/
structure Wallet where
  available : Bool

/-- The network calls occurring in a trace, in order. -/
def callsOf (tr : List Event) : List ChainCall :=
  tr.filterMap fun e =>
    match e with
    | Event.call c => some c
    | _ => none

/-- fetchTokenDecimals (App.js lines 68-97): returns the resolved decimals
together with the updated state and event trace.  Every branch, including
a failed decimals query (oracle none, the thrown-and-caught case), produces
a result, so no exception escapes this operation. -/
def fetchTokenDecimals (ch : Chain) (tokenAddr : String) (s : AppState) :
    Nat × AppState × List Event :=
  if tokenAddr == "" || !isAddress tokenAddr then
    (18, { s with tokenDecimals := 18 }, [Event.setDecimals 18])
  else if isZeroLike tokenAddr then
    (18, { s with tokenDecimals := 18 }, [Event.setDecimals 18])
  else
    match ch.decimalsResult tokenAddr with
    | some d =>
        (d, { s with tokenDecimals := d },
         [Event.call (ChainCall.readDecimals tokenAddr), Event.setDecimals d])
    | none =>
        (18, { s with tokenDecimals := 18 },
         [Event.call (ChainCall.readDecimals tokenAddr), Event.setDecimals 18])

/-- fetchBalance (App.js lines 100-145).  The publicClient-missing guard of
lines 102-104 is omitted: publicClient is a module-level constant created
unconditionally at line 38, so that early return is unreachable.  The
finally clause clears the loading flag on the success and failure paths;
the invalid-address early return clears it explicitly. -/
def fetchBalance (ch : Chain) (tokenAddr : String) (s : AppState) :
    AppState × List Event :=
  if tokenAddr == "" || !isAddress tokenAddr then
    ({ s with balance := none, isLoadingBalance := false },
     [Event.setBalance none, Event.setLoading false])
  else
    let s1 := { s with isLoadingBalance := true }
    if isZeroLike tokenAddr then
      match ch.getBalanceResult faucetAddress with
      | some b =>
          ({ s1 with balance := some b, tokenDecimals := 18,
                     isLoadingBalance := false },
           [Event.setLoading true, Event.call (ChainCall.getBalance faucetAddress),
            Event.setBalance (some b), Event.setDecimals 18, Event.setLoading false])
      | none =>
          ({ s1 with balance := none, isLoadingBalance := false },
           [Event.setLoading true, Event.call (ChainCall.getBalance faucetAddress),
            Event.setBalance none, Event.setLoading false])
    else
      let fd := fetchTokenDecimals ch tokenAddr s1
      match ch.getTokenBalanceResult tokenAddr faucetAddress with
      | some b =>
          ({ fd.2.1 with balance := some b, isLoadingBalance := false },
           Event.setLoading true :: fd.2.2 ++
            [Event.call (ChainCall.readGetTokenBalance tokenAddr faucetAddress),
             Event.setBalance (some b), Event.setLoading false])
      | none =>
          ({ fd.2.1 with balance := none, isLoadingBalance := false },
           Event.setLoading true :: fd.2.2 ++
            [Event.call (ChainCall.readGetTokenBalance tokenAddr faucetAddress),
             Event.setBalance none, Event.setLoading false])

/-- The debounced balance-fetch effect (App.js lines 148-172), abstracted
to its firing discipline: given the chronologically ordered list of
address-edit events (time in ms, address value), an edit schedules a fetch
at its time + 500 only when its address is valid (an empty or invalid edit
clears the balance and schedules nothing), and any scheduled fetch is
cancelled when a further edit occurs before it fires. -/
def debounceFires : List (Nat × String) → List (Nat × String)
  | [] => []
  | (t, a) :: rest =>
      (if rest.all (fun p => decide (t + 500 ≤ p.1)) && isAddress a
       then [(t + 500, a)] else []) ++ debounceFires rest

/-- validateInputs (App.js lines 174-198): returns (result, state, trace).
The signing-client check models the external wallet boundary: a client is
obtained iff a wallet provider is available. -/
def validateInputs (w : Wallet) (s : AppState) : Bool × AppState × List Event :=
  if s.tokenAddress == "" || !isAddress s.tokenAddress then
    (false, { s with error := "请输入有效的代币地址" },
     [Event.setError "请输入有效的代币地址"])
  else if s.receiverAddress == "" || !isAddress s.receiverAddress then
    (false, { s with error := "请输入有效的接收地址" },
     [Event.setError "请输入有效的接收地址"])
  else if s.amount == "" ||
          (match jsNumber? s.amount with
           | none => true
           | some n => decide (n.num ≤ 0)) then
    (false, { s with error := "请输入有效的数量" },
     [Event.setError "请输入有效的数量"])
  else if !w.available then
    (false, { s with error := "请先连接钱包" },
     [Event.setError "请先连接钱包"])
  else
    (true, { s with error := "" }, [Event.setError ""])

/-- handleMint (App.js lines 200-247): clears the message and transaction
fields, validates, and inside the try block converts the amount using 18
decimals for the zero address and the resolved token decimals otherwise,
submits the mint write (the fixed maxFeePerGas option is not modelled),
records hash/type/success, awaits the receipt and refreshes the balance;
any throw inside the try (parseUnits, writeContract or the receipt wait)
is caught and sets the generic failure message, and the finally clause
clears the in-flight flag. -/
def handleMint (ch : Chain) (w : Wallet) (s : AppState) : AppState × List Event :=
  let s0 : AppState := { s with success := "", error := "", txHash := "", txType := "" }
  let tr0 : List Event :=
    [Event.setSuccess "", Event.setError "", Event.setTxHash "", Event.setTxType ""]
  let v := validateInputs w s0
  if !v.1 then (v.2.1, tr0 ++ v.2.2)
  else
    let s1 := { v.2.1 with isMinting := true }
    let tr1 := tr0 ++ v.2.2 ++ [Event.setMinting true]
    let dec := if isZeroAddress s1.tokenAddress then 18 else s1.tokenDecimals
    match parseUnits s1.amount dec with
    | none =>
        ({ s1 with error := "Transaction fail", isMinting := false },
         tr1 ++ [Event.setError "Transaction fail", Event.setMinting false])
    | some amountIn =>
        match ch.mintResult s1.tokenAddress s1.receiverAddress amountIn with
        | none =>
            ({ s1 with error := "Transaction fail", isMinting := false },
             tr1 ++ [Event.call (ChainCall.writeMint s1.tokenAddress s1.receiverAddress amountIn),
                     Event.setError "Transaction fail", Event.setMinting false])
        | some hash =>
            let s2 := { s1 with txHash := hash, txType := "mint", success := "Mint成功！" }
            let tr2 := tr1 ++
              [Event.call (ChainCall.writeMint s1.tokenAddress s1.receiverAddress amountIn),
               Event.setTxHash hash, Event.setTxType "mint", Event.setSuccess "Mint成功！"]
            if hash == "" then
              ({ s2 with isMinting := false }, tr2 ++ [Event.setMinting false])
            else if ch.waitReceiptOk hash then
              let fb := fetchBalance ch s2.tokenAddress s2
              ({ fb.1 with isMinting := false },
               tr2 ++ Event.call (ChainCall.waitReceipt hash) :: fb.2 ++ [Event.setMinting false])
            else
              ({ s2 with error := "Transaction fail", isMinting := false },
               tr2 ++ [Event.call (ChainCall.waitReceipt hash),
                       Event.setError "Transaction fail", Event.setMinting false])

/-- handleClaim (App.js lines 249-291): structurally identical to
handleMint with the claim contract function, the claim success message and
the isClaiming flag, and no pinned gas fee. -/
def handleClaim (ch : Chain) (w : Wallet) (s : AppState) : AppState × List Event :=
  let s0 : AppState := { s with success := "", error := "", txHash := "", txType := "" }
  let tr0 : List Event :=
    [Event.setSuccess "", Event.setError "", Event.setTxHash "", Event.setTxType ""]
  let v := validateInputs w s0
  if !v.1 then (v.2.1, tr0 ++ v.2.2)
  else
    let s1 := { v.2.1 with isClaiming := true }
    let tr1 := tr0 ++ v.2.2 ++ [Event.setClaiming true]
    let dec := if isZeroAddress s1.tokenAddress then 18 else s1.tokenDecimals
    match parseUnits s1.amount dec with
    | none =>
        ({ s1 with error := "Transaction fail", isClaiming := false },
         tr1 ++ [Event.setError "Transaction fail", Event.setClaiming false])
    | some amountInWei =>
        match ch.claimResult s1.tokenAddress s1.receiverAddress amountInWei with
        | none =>
            ({ s1 with error := "Transaction fail", isClaiming := false },
             tr1 ++ [Event.call (ChainCall.writeClaim s1.tokenAddress s1.receiverAddress amountInWei),
                     Event.setError "Transaction fail", Event.setClaiming false])
        | some hash =>
            let s2 := { s1 with txHash := hash, txType := "claim", success := "Claim成功！" }
            let tr2 := tr1 ++
              [Event.call (ChainCall.writeClaim s1.tokenAddress s1.receiverAddress amountInWei),
               Event.setTxHash hash, Event.setTxType "claim", Event.setSuccess "Claim成功！"]
            if hash == "" then
              ({ s2 with isClaiming := false }, tr2 ++ [Event.setClaiming false])
            else if ch.waitReceiptOk hash then
              let fb := fetchBalance ch s2.tokenAddress s2
              ({ fb.1 with isClaiming := false },
               tr2 ++ Event.call (ChainCall.waitReceipt hash) :: fb.2 ++ [Event.setClaiming false])
            else
              ({ s2 with error := "Transaction fail", isClaiming := false },
               tr2 ++ [Event.call (ChainCall.waitReceipt hash),
                       Event.setError "Transaction fail", Event.setClaiming false])

/-- A valid, non-sentinel, lowercase token address used as concrete input. -/
def tokenA : String := "0x00000000000000000000000000000000000000a1"

/-- A second valid, non-sentinel token address used as concrete input. -/
def tokenB : String := "0x00000000000000000000000000000000000000b2"

/-- A valid receiver address used as concrete input. -/
def recvA : String := "0x00000000000000000000000000000000000000c3"

/-- A chain oracle on which every call succeeds. -/
def chainOK : Chain :=
  { decimalsResult := fun _ => some 6
    getBalanceResult := fun _ => some 42
    getTokenBalanceResult := fun _ _ => some 1000
    mintResult := fun _ _ _ => some "0xf00d"
    claimResult := fun _ _ _ => some "0xf00d"
    waitReceiptOk := fun _ => true }

/-- A chain oracle on which every read and write fails. -/
def chainFail : Chain :=
  { decimalsResult := fun _ => none
    getBalanceResult := fun _ => none
    getTokenBalanceResult := fun _ _ => none
    mintResult := fun _ _ _ => none
    claimResult := fun _ _ _ => none
    waitReceiptOk := fun _ => false }

/-- A chain oracle on which submission succeeds but the receipt wait fails. -/
def chainWaitFail : Chain :=
  { decimalsResult := fun _ => some 6
    getBalanceResult := fun _ => some 42
    getTokenBalanceResult := fun _ _ => some 1000
    mintResult := fun _ _ _ => some "0xbead"
    claimResult := fun _ _ _ => some "0xbead"
    waitReceiptOk := fun _ => false }

/-- A connected wallet. -/
def walletOn : Wallet := ⟨true⟩

/-- A component state with valid inputs on a non-sentinel token of resolved
decimals 6 and amount 2.5. -/
def stateA : AppState :=
  { initialState with tokenAddress := tokenA, receiverAddress := recvA,
                      amount := "2.5", tokenDecimals := 6 }

/-- A component state with valid inputs on the sentinel token and amount 1.5. -/
def stateZ : AppState :=
  { initialState with tokenAddress := zeroAddress, receiverAddress := recvA,
                      amount := "1.5" }

/-- A component state whose token address is syntactically invalid, with
non-default balance/decimals/loading values to observe the frame. -/
def stateBad : AppState :=
  { initialState with tokenAddress := "abc", receiverAddress := recvA,
                      amount := "1", balance := some 7, tokenDecimals := 9,
                      isLoadingBalance := true, txHash := "0xold",
                      txType := "mint", success := "Mint成功！" }

/-- Whether an event is a clearing of the loading flag,
i.e. a setIsLoadingBalance(false) call. -/
def isLoadClear (e : Event) : Bool :=
  match e with
  | Event.setLoading false => true
  | _ => false

/-- Number of loading-flag-clear events in a trace. -/
def loadClears (tr : List Event) : Nat := (tr.filter isLoadClear).length

/-! Helper lemmas shared by several claim proofs. -/

theorem addr_not_empty (a : String) (h : isAddress a = true) : (a == "") = false := by
  cases he : a == "" with
  | false => rfl
  | true =>
      have ha : a = "" := by simpa using he
      subst ha
      exact absurd h (by decide)

theorem emptyOrInvalid (a : String) : (a == "" || !isAddress a) = !isAddress a := by
  cases he : a == "" with
  | false => simp
  | true =>
      have ha : a = "" := by simpa using he
      subst ha
      decide

theorem loadClears_cons (e : Event) (tr : List Event) :
    loadClears (e :: tr) = (if isLoadClear e = true then 1 else 0) + loadClears tr := by
  simp only [loadClears, List.filter_cons]
  split <;> simp [Nat.add_comm]

theorem loadClears_append (l1 l2 : List Event) :
    loadClears (l1 ++ l2) = loadClears l1 + loadClears l2 := by
  simp [loadClears, List.filter_append]

theorem fetchTokenDecimals_loadClears (ch : Chain) (a : String) (s : AppState) :
    loadClears (fetchTokenDecimals ch a s).2.2 = 0 := by
  cases hv : (a == "" || !isAddress a) with
  | true => simp [fetchTokenDecimals, hv, loadClears, isLoadClear]
  | false =>
    cases hz : isZeroLike a with
    | true => simp [fetchTokenDecimals, hv, hz, loadClears, isLoadClear]
    | false =>
      cases hd : ch.decimalsResult a with
      | some d => simp [fetchTokenDecimals, hv, hz, hd, loadClears, isLoadClear]
      | none => simp [fetchTokenDecimals, hv, hz, hd, loadClears, isLoadClear]

/-- C2: for every input string, fetchTokenDecimals returns 18 with no
network call when the string is invalid or case-insensitively equals the
zero address; for a valid non-sentinel address it performs exactly the
decimals query, returning the queried integer on success and 18 on any
query failure.  The operation is a total function of its oracle, so no
exception propagates out of it under any input. -/
theorem fetchTokenDecimals_spec (ch : Chain) (s : AppState) (a : String) :
    (isAddress a = false →
       (fetchTokenDecimals ch a s).1 = 18 ∧ callsOf (fetchTokenDecimals ch a s).2.2 = []) ∧
    (isZeroLike a = true →
       (fetchTokenDecimals ch a s).1 = 18 ∧ callsOf (fetchTokenDecimals ch a s).2.2 = []) ∧
    (isAddress a = true → isZeroLike a = false →
       callsOf (fetchTokenDecimals ch a s).2.2 = [ChainCall.readDecimals a] ∧
       ∀ d, ch.decimalsResult a = some d → (fetchTokenDecimals ch a s).1 = d) ∧
    (ch.decimalsResult a = none → (fetchTokenDecimals ch a s).1 = 18) := by
  refine ⟨?_, ?_, ?_, ?_⟩
  · intro h
    simp [fetchTokenDecimals, h, callsOf]
  · intro h
    cases hv : (a == "" || !isAddress a) with
    | true => simp [fetchTokenDecimals, hv, callsOf]
    | false => simp [fetchTokenDecimals, hv, h, callsOf]
  · intro hva hz
    have hne := addr_not_empty a hva
    cases hd : ch.decimalsResult a with
    | some d => simp [fetchTokenDecimals, hne, hva, hz, hd, callsOf]
    | none => simp [fetchTokenDecimals, hne, hva, hz, hd, callsOf]
  · intro hd
    cases hv : (a == "" || !isAddress a) with
    | true => simp [fetchTokenDecimals, hv]
    | false =>
      cases hz : isZeroLike a with
      | true => simp [fetchTokenDecimals, hv, hz]
      | false => simp [fetchTokenDecimals, hv, hz, hd]

theorem fetchTokenDecimals_spec_witness :
    isAddress tokenA = true ∧ isZeroLike tokenA = false ∧
    callsOf (fetchTokenDecimals chainOK tokenA initialState).2.2 =
      [ChainCall.readDecimals tokenA] ∧
    (fetchTokenDecimals chainOK tokenA initialState).1 = 6 :=
  ⟨by decide, by decide,
   ((fetchTokenDecimals_spec chainOK initialState tokenA).2.2.1 (by decide) (by decide)).1,
   ((fetchTokenDecimals_spec chainOK initialState tokenA).2.2.1 (by decide) (by decide)).2 6 rfl⟩

/-- C1: for every valid token address, fetchBalance reports the faucet
contract's holdings: for the zero (native-asset sentinel) address the only
network call is the native-balance query of the faucet's own address
(never a token contract), with decimals set to 18 on success; for every
other valid address the calls are exactly the decimals resolution followed
by the faucet's getTokenBalance view with (token address, faucet address),
whose successful result becomes the stored balance. -/
theorem fetchBalance_targets (ch : Chain) (s : AppState) (a : String)
    (hv : isAddress a = true) :
    (isZeroLike a = true →
       callsOf (fetchBalance ch a s).2 = [ChainCall.getBalance faucetAddress] ∧
       ∀ b, ch.getBalanceResult faucetAddress = some b →
         (fetchBalance ch a s).1.balance = some b ∧
         (fetchBalance ch a s).1.tokenDecimals = 18) ∧
    (isZeroLike a = false →
       callsOf (fetchBalance ch a s).2 =
         [ChainCall.readDecimals a, ChainCall.readGetTokenBalance a faucetAddress] ∧
       ∀ b, ch.getTokenBalanceResult a faucetAddress = some b →
         (fetchBalance ch a s).1.balance = some b) := by
  have hne := addr_not_empty a hv
  constructor
  · intro hz
    cases hg : ch.getBalanceResult faucetAddress with
    | some b => simp [fetchBalance, hne, hv, hz, hg, callsOf]
    | none => simp [fetchBalance, hne, hv, hz, hg, callsOf]
  · intro hz
    cases hd : ch.decimalsResult a with
    | some d =>
        cases hg : ch.getTokenBalanceResult a faucetAddress with
        | some b => simp [fetchBalance, fetchTokenDecimals, hne, hv, hz, hd, hg, callsOf]
        | none => simp [fetchBalance, fetchTokenDecimals, hne, hv, hz, hd, hg, callsOf]
    | none =>
        cases hg : ch.getTokenBalanceResult a faucetAddress with
        | some b => simp [fetchBalance, fetchTokenDecimals, hne, hv, hz, hd, hg, callsOf]
        | none => simp [fetchBalance, fetchTokenDecimals, hne, hv, hz, hd, hg, callsOf]

theorem fetchBalance_targets_witness :
    isAddress tokenA = true ∧ isZeroLike tokenA = false ∧
    callsOf (fetchBalance chainOK tokenA initialState).2 =
      [ChainCall.readDecimals tokenA, ChainCall.readGetTokenBalance tokenA faucetAddress] ∧
    (fetchBalance chainOK tokenA initialState).1.balance = some 1000 :=
  ⟨by decide, by decide,
   ((fetchBalance_targets chainOK initialState tokenA (by decide)).2 (by decide)).1,
   ((fetchBalance_targets chainOK initialState tokenA (by decide)).2 (by decide)).2 1000 rfl⟩

/-- C9: on every execution path of fetchBalance — early return on an
invalid address, successful fetch, or fetch failure — the loading flag is
cleared exactly once, and the operation never terminates with the loading
flag still set. -/
theorem fetchBalance_loading_once (ch : Chain) (s : AppState) (a : String) :
    loadClears (fetchBalance ch a s).2 = 1 ∧
    (fetchBalance ch a s).1.isLoadingBalance = false := by
  cases hv : (a == "" || !isAddress a) with
  | true => simp [fetchBalance, hv, loadClears, isLoadClear]
  | false =>
    cases hz : isZeroLike a with
    | true =>
        cases hg : ch.getBalanceResult faucetAddress <;>
          simp [fetchBalance, hv, hz, hg, loadClears, isLoadClear]
    | false =>
        cases hg : ch.getTokenBalanceResult a faucetAddress <;>
          simp [fetchBalance, hv, hz, hg, loadClears_cons, loadClears_append,
                fetchTokenDecimals_loadClears, isLoadClear,
                show loadClears [] = 0 from rfl]

/-- C7 counterexample: on the invalid (empty) address input fetchBalance
stores the very same balance value — none, the embedding of null — that a
failed network fetch on a valid token address stores, so the two outcome
states are not distinguishable by the balance value, contrary to the
claim of a distinct not-applicable state. -/
theorem balance_none_states_equal :
    isAddress tokenA = true ∧
    chainFail.getTokenBalanceResult tokenA faucetAddress = none ∧
    (fetchBalance chainFail "" initialState).1.balance = none ∧
    (fetchBalance chainFail tokenA initialState).1.balance = none ∧
    (fetchBalance chainFail "" initialState).1.balance =
      (fetchBalance chainFail tokenA initialState).1.balance := by
  decide

/-- C7 amended: on an empty or invalid address fetchBalance sets the
balance to null (none) with the loading flag cleared and no network call;
a failed fetch on a valid non-sentinel address sets the balance to the
same null value, so the two outcomes coincide on the stored balance. -/
theorem balance_invalid_vs_failure (ch : Chain) (s s2 : AppState) (a b : String)
    (ha : isAddress a = false) (hb : isAddress b = true)
    (hzb : isZeroLike b = false)
    (hfail : ch.getTokenBalanceResult b faucetAddress = none) :
    (fetchBalance ch a s).1.balance = none ∧
    callsOf (fetchBalance ch a s).2 = [] ∧
    (fetchBalance ch a s).1.isLoadingBalance = false ∧
    (fetchBalance ch b s2).1.balance = none ∧
    (fetchBalance ch a s).1.balance = (fetchBalance ch b s2).1.balance := by
  have hne := addr_not_empty b hb
  have h1 : (fetchBalance ch a s).1.balance = none ∧
      callsOf (fetchBalance ch a s).2 = [] ∧
      (fetchBalance ch a s).1.isLoadingBalance = false := by
    simp [fetchBalance, ha, callsOf]
  have h2 : (fetchBalance ch b s2).1.balance = none := by
    cases hd : ch.decimalsResult b with
    | some d => simp [fetchBalance, fetchTokenDecimals, hne, hb, hzb, hd, hfail]
    | none => simp [fetchBalance, fetchTokenDecimals, hne, hb, hzb, hd, hfail]
  refine ⟨h1.1, h1.2.1, h1.2.2, h2, ?_⟩
  rw [h1.1, h2]

theorem balance_invalid_vs_failure_witness :
    (fetchBalance chainFail "" initialState).1.balance = none ∧
    callsOf (fetchBalance chainFail "" initialState).2 = [] ∧
    (fetchBalance chainFail "" initialState).1.isLoadingBalance = false ∧
    (fetchBalance chainFail tokenA initialState).1.balance = none ∧
    (fetchBalance chainFail "" initialState).1.balance =
      (fetchBalance chainFail tokenA initialState).1.balance :=
  balance_invalid_vs_failure chainFail initialState initialState "" tokenA
    (by decide) (by decide) (by decide) rfl

/-- C4: the debounce coordinator coalesces rapid edits — every edit cancels
a pending not-yet-fired fetch timer and a valid edit schedules a fetch
500 ms later, so when every earlier edit has the final edit occurring
within its 500 ms window, exactly one fetch fires, 500 ms after the last
edit, with the last edit's address. -/
theorem debounce_last_edit_wins (edits : List (Nat × String)) (t : Nat) (a : String)
    (hv : isAddress a = true) (hwin : ∀ p ∈ edits, t < p.1 + 500) :
    debounceFires (edits ++ [(t, a)]) = [(t + 500, a)] := by
  induction edits with
  | nil => simp [debounceFires, hv]
  | cons p rest ih =>
      have hp : t < p.1 + 500 := hwin p (by simp)
      have hall : ((rest ++ [(t, a)]).all fun q => decide (p.1 + 500 ≤ q.1)) = false := by
        apply List.all_eq_false.mpr
        exact ⟨(t, a), by simp, by simpa using Nat.not_le.mpr hp⟩
      calc debounceFires ((p :: rest) ++ [(t, a)])
          = (if ((rest ++ [(t, a)]).all fun q => decide (p.1 + 500 ≤ q.1)) && isAddress p.2
             then [(p.1 + 500, p.2)] else []) ++ debounceFires (rest ++ [(t, a)]) := by
            simp [debounceFires]
        _ = [(t + 500, a)] := by
            rw [hall, ih fun q hq => hwin q (by simp [hq])]
            simp

theorem debounce_last_edit_wins_witness :
    isAddress tokenA = true ∧
    (∀ p ∈ [((0 : Nat), tokenB), (100, tokenB)], 200 < p.1 + 500) ∧
    debounceFires [((0 : Nat), tokenB), (100, tokenB), (200, tokenA)] = [(700, tokenA)] :=
  ⟨by decide, by decide,
   debounce_last_edit_wins [(0, tokenB), (100, tokenB)] 200 tokenA (by decide) (by decide)⟩

theorem amountCheckFalseIff (a : String) :
    ((a == "" ||
      (match jsNumber? a with
       | none => true
       | some n => decide (n.num ≤ 0))) = false) ↔
      (∃ n, jsNumber? a = some n ∧ 0 < n.num) := by
  cases he : a == "" with
  | true =>
      have ha : a = "" := by simpa using he
      subst ha
      simp [jsNumber?]
  | false =>
      cases hn : jsNumber? a with
      | none => simp [hn]
      | some n => simp [hn, Int.not_le]

theorem validateInputs_fst (w : Wallet) (s : AppState) :
    (validateInputs w s).1 =
      (isAddress s.tokenAddress && isAddress s.receiverAddress &&
       !(s.amount == "" ||
         (match jsNumber? s.amount with
          | none => true
          | some n => decide (n.num ≤ 0))) && w.available) := by
  simp only [validateInputs, emptyOrInvalid]
  cases hta : isAddress s.tokenAddress with
  | false => simp
  | true =>
    cases hra : isAddress s.receiverAddress with
    | false => simp
    | true =>
      cases hA : (s.amount == "" ||
          (match jsNumber? s.amount with
           | none => true
           | some n => decide (n.num ≤ 0))) with
      | true => simp [hA]
      | false =>
        cases hw : w.available with
        | false => simp [hA, hw]
        | true => simp [hA, hw]

theorem validateInputs_no_calls (w : Wallet) (s : AppState) :
    callsOf (validateInputs w s).2.2 = [] := by
  simp only [validateInputs]
  split
  · simp [callsOf]
  · split
    · simp [callsOf]
    · split
      · simp [callsOf]
      · split
        · simp [callsOf]
        · simp [callsOf]

theorem validateInputs_error_nonempty (w : Wallet) (s : AppState)
    (h : (validateInputs w s).1 = false) : (validateInputs w s).2.1.error ≠ "" := by
  cases h1 : (s.tokenAddress == "" || !isAddress s.tokenAddress) with
  | true =>
      have he : (validateInputs w s).2.1.error = "请输入有效的代币地址" := by
        simp [validateInputs, h1]
      rw [he]; decide
  | false =>
    cases h2 : (s.receiverAddress == "" || !isAddress s.receiverAddress) with
    | true =>
        have he : (validateInputs w s).2.1.error = "请输入有效的接收地址" := by
          simp [validateInputs, h1, h2]
        rw [he]; decide
    | false =>
      cases h3 : (s.amount == "" ||
          (match jsNumber? s.amount with
           | none => true
           | some n => decide (n.num ≤ 0))) with
      | true =>
          have he : (validateInputs w s).2.1.error = "请输入有效的数量" := by
            simp [validateInputs, h1, h2, h3]
          rw [he]; decide
      | false =>
        cases h4 : w.available with
        | false =>
            have he : (validateInputs w s).2.1.error = "请先连接钱包" := by
              simp [validateInputs, h1, h2, h3, h4]
            rw [he]; decide
        | true =>
            have ht : (validateInputs w s).1 = true := by
              simp [validateInputs, h1, h2, h3, h4]
            rw [ht] at h
            exact absurd h (by decide)

theorem validateInputs_preserves (w : Wallet) (s : AppState) :
    (validateInputs w s).2.1.tokenAddress = s.tokenAddress ∧
    (validateInputs w s).2.1.receiverAddress = s.receiverAddress ∧
    (validateInputs w s).2.1.amount = s.amount ∧
    (validateInputs w s).2.1.tokenDecimals = s.tokenDecimals ∧
    (validateInputs w s).2.1.balance = s.balance ∧
    (validateInputs w s).2.1.isLoadingBalance = s.isLoadingBalance ∧
    (validateInputs w s).2.1.success = s.success ∧
    (validateInputs w s).2.1.txHash = s.txHash ∧
    (validateInputs w s).2.1.txType = s.txType := by
  simp only [validateInputs]
  split
  · simp
  · split
    · simp
    · split
      · simp
      · split
        · simp
        · simp

theorem validateInputs_fst_clear (w : Wallet) (s : AppState) :
    (validateInputs w
        { s with success := "", error := "", txHash := "", txType := "" }).1 =
      (validateInputs w s).1 := by
  rw [validateInputs_fst, validateInputs_fst]

theorem callsOf_append (l1 l2 : List Event) :
    callsOf (l1 ++ l2) = callsOf l1 ++ callsOf l2 := by
  simp [callsOf]

theorem callsOf_cons_setSuccess (m : String) (tr : List Event) :
    callsOf (Event.setSuccess m :: tr) = callsOf tr := by
  simp [callsOf]

theorem callsOf_cons_setError (m : String) (tr : List Event) :
    callsOf (Event.setError m :: tr) = callsOf tr := by
  simp [callsOf]

theorem callsOf_cons_setTxHash (m : String) (tr : List Event) :
    callsOf (Event.setTxHash m :: tr) = callsOf tr := by
  simp [callsOf]

theorem callsOf_cons_setTxType (m : String) (tr : List Event) :
    callsOf (Event.setTxType m :: tr) = callsOf tr := by
  simp [callsOf]

/-- C5: the shared precondition validation of the mint and claim flows
passes exactly when the token address is valid, the receiver address is
valid, the amount coerces to a positive number and a signing client is
available; on any failure it sets a non-empty user-visible error and both
flows abort before making any network call. -/
theorem validateInputs_preconditions (ch : Chain) (w : Wallet) (s : AppState) :
    ((validateInputs w s).1 = true ↔
       (isAddress s.tokenAddress = true ∧ isAddress s.receiverAddress = true ∧
        (∃ n, jsNumber? s.amount = some n ∧ 0 < n.num) ∧ w.available = true)) ∧
    ((validateInputs w s).1 = false →
       (validateInputs w s).2.1.error ≠ "" ∧
       callsOf (handleMint ch w s).2 = [] ∧
       callsOf (handleClaim ch w s).2 = []) := by
  constructor
  · rw [validateInputs_fst]
    simp only [Bool.and_eq_true, Bool.not_eq_true']
    rw [amountCheckFalseIff]
    tauto
  · intro h
    have h0 : (validateInputs w
        { s with success := "", error := "", txHash := "", txType := "" }).1 = false := by
      rw [validateInputs_fst_clear]; exact h
    refine ⟨validateInputs_error_nonempty w s h, ?_, ?_⟩
    · simp [handleMint, h0, callsOf_cons_setSuccess, callsOf_cons_setError,
            callsOf_cons_setTxHash, callsOf_cons_setTxType, validateInputs_no_calls]
    · simp [handleClaim, h0, callsOf_cons_setSuccess, callsOf_cons_setError,
            callsOf_cons_setTxHash, callsOf_cons_setTxType, validateInputs_no_calls]

theorem validateInputs_preconditions_witness :
    (validateInputs walletOn stateBad).1 = false ∧
    (validateInputs walletOn stateBad).2.1.error ≠ "" ∧
    callsOf (handleMint chainOK walletOn stateBad).2 = [] ∧
    callsOf (handleClaim chainOK walletOn stateBad).2 = [] :=
  ⟨by decide,
   ((validateInputs_preconditions chainOK walletOn stateBad).2 (by decide)).1,
   ((validateInputs_preconditions chainOK walletOn stateBad).2 (by decide)).2.1,
   ((validateInputs_preconditions chainOK walletOn stateBad).2 (by decide)).2.2⟩

/-- C3: in both submission flows the effective decimal precision for amount
conversion is 18 for the native-asset sentinel address and the previously
resolved token decimals otherwise — the submitted base-unit amount is the
parseUnits conversion of the entered amount at exactly that precision —
and conversion satisfies the two reference scenarios: "1.5" at the
sentinel's 18 decimals is 1500000000000000000 and "2.5" at 6 decimals is
2500000. -/
theorem mint_claim_effective_decimals (ch : Chain) (w : Wallet) (s : AppState) (amt : Int)
    (hval : (validateInputs w s).1 = true)
    (hp : parseUnits s.amount
        (if isZeroAddress s.tokenAddress then 18 else s.tokenDecimals) = some amt) :
    Event.call (ChainCall.writeMint s.tokenAddress s.receiverAddress amt) ∈
      (handleMint ch w s).2 ∧
    Event.call (ChainCall.writeClaim s.tokenAddress s.receiverAddress amt) ∈
      (handleClaim ch w s).2 ∧
    parseUnits "1.5" 18 = some 1500000000000000000 ∧
    parseUnits "2.5" 6 = some 2500000 := by
  have h0 : (validateInputs w
      { s with success := "", error := "", txHash := "", txType := "" }).1 = true := by
    rw [validateInputs_fst_clear]; exact hval
  have hpre := validateInputs_preserves w
    { s with success := "", error := "", txHash := "", txType := "" }
  refine ⟨?_, ?_, by decide, by decide⟩
  · cases hm : ch.mintResult s.tokenAddress s.receiverAddress amt with
    | none => simp [handleMint, h0, hpre, hp, hm]
    | some hash =>
        cases hh : hash == "" with
        | true => simp [handleMint, h0, hpre, hp, hm, hh]
        | false =>
            cases hw2 : ch.waitReceiptOk hash with
            | true => simp [handleMint, h0, hpre, hp, hm, hh, hw2]
            | false => simp [handleMint, h0, hpre, hp, hm, hh, hw2]
  · cases hm : ch.claimResult s.tokenAddress s.receiverAddress amt with
    | none => simp [handleClaim, h0, hpre, hp, hm]
    | some hash =>
        cases hh : hash == "" with
        | true => simp [handleClaim, h0, hpre, hp, hm, hh]
        | false =>
            cases hw2 : ch.waitReceiptOk hash with
            | true => simp [handleClaim, h0, hpre, hp, hm, hh, hw2]
            | false => simp [handleClaim, h0, hpre, hp, hm, hh, hw2]

theorem mint_claim_effective_decimals_witness :
    (validateInputs walletOn stateZ).1 = true ∧
    parseUnits stateZ.amount
      (if isZeroAddress stateZ.tokenAddress then 18 else stateZ.tokenDecimals) =
      some 1500000000000000000 ∧
    Event.call (ChainCall.writeMint zeroAddress recvA 1500000000000000000) ∈
      (handleMint chainOK walletOn stateZ).2 ∧
    parseUnits "2.5" 6 = some 2500000 :=
  ⟨by decide, by decide,
   (mint_claim_effective_decimals chainOK walletOn stateZ 1500000000000000000
     (by decide) (by decide)).1,
   (mint_claim_effective_decimals chainOK walletOn stateZ 1500000000000000000
     (by decide) (by decide)).2.2.2⟩

/-- C8: whenever transaction submission fails (the write oracle throws, as
on wallet rejection) the flows end with the stored transaction hash and
the success message still empty — no partial state — and, when validation
had passed, with the generic failure message shown. -/
theorem submission_failure_clean (ch : Chain) (w : Wallet) (s : AppState)
    (hm : ∀ t r a, ch.mintResult t r a = none)
    (hc : ∀ t r a, ch.claimResult t r a = none) :
    (handleMint ch w s).1.txHash = "" ∧ (handleMint ch w s).1.success = "" ∧
    (handleClaim ch w s).1.txHash = "" ∧ (handleClaim ch w s).1.success = "" ∧
    ((validateInputs w s).1 = true →
       (handleMint ch w s).1.error = "Transaction fail" ∧
       (handleClaim ch w s).1.error = "Transaction fail") := by
  have hpre := validateInputs_preserves w
    { s with success := "", error := "", txHash := "", txType := "" }
  cases hval : (validateInputs w s).1 with
  | false =>
      have h0 : (validateInputs w
          { s with success := "", error := "", txHash := "", txType := "" }).1 = false := by
        rw [validateInputs_fst_clear]; exact hval
      refine ⟨?_, ?_, ?_, ?_, fun ht => ?_⟩
      · simp [handleMint, h0, hpre]
      · simp [handleMint, h0, hpre]
      · simp [handleClaim, h0, hpre]
      · simp [handleClaim, h0, hpre]
      · exact absurd ht (by decide)
  | true =>
      have h0 : (validateInputs w
          { s with success := "", error := "", txHash := "", txType := "" }).1 = true := by
        rw [validateInputs_fst_clear]; exact hval
      cases hp : parseUnits s.amount
          (if isZeroAddress s.tokenAddress then 18 else s.tokenDecimals) with
      | none =>
          refine ⟨?_, ?_, ?_, ?_, fun _ => ⟨?_, ?_⟩⟩ <;>
            first
            | simp [handleMint, h0, hpre, hp]
            | simp [handleClaim, h0, hpre, hp]
      | some amt =>
          refine ⟨?_, ?_, ?_, ?_, fun _ => ⟨?_, ?_⟩⟩ <;>
            first
            | simp [handleMint, h0, hpre, hp, hm]
            | simp [handleClaim, h0, hpre, hp, hc]

theorem submission_failure_clean_witness :
    (validateInputs walletOn stateA).1 = true ∧
    (handleMint chainFail walletOn stateA).1.txHash = "" ∧
    (handleMint chainFail walletOn stateA).1.success = "" ∧
    (handleClaim chainFail walletOn stateA).1.txHash = "" ∧
    (handleClaim chainFail walletOn stateA).1.success = "" ∧
    (handleMint chainFail walletOn stateA).1.error = "Transaction fail" :=
  ⟨by decide,
   (submission_failure_clean chainFail walletOn stateA
     (fun _ _ _ => rfl) (fun _ _ _ => rfl)).1,
   (submission_failure_clean chainFail walletOn stateA
     (fun _ _ _ => rfl) (fun _ _ _ => rfl)).2.1,
   (submission_failure_clean chainFail walletOn stateA
     (fun _ _ _ => rfl) (fun _ _ _ => rfl)).2.2.1,
   (submission_failure_clean chainFail walletOn stateA
     (fun _ _ _ => rfl) (fun _ _ _ => rfl)).2.2.2.1,
   ((submission_failure_clean chainFail walletOn stateA
     (fun _ _ _ => rfl) (fun _ _ _ => rfl)).2.2.2.2 (by decide)).1⟩

/-- C10: both handlers first clear the success message, error message,
transaction hash and transaction type — the first four trace events —
before validation runs; hence after a validation failure the previous
transaction's hash, type and success indicator are wiped, the new error is
the only non-empty message, and balance, decimals and loading state are
unchanged. -/
theorem handlers_clear_then_validate (ch : Chain) (w : Wallet) (s : AppState) :
    (handleMint ch w s).2.take 4 =
      [Event.setSuccess "", Event.setError "", Event.setTxHash "", Event.setTxType ""] ∧
    (handleClaim ch w s).2.take 4 =
      [Event.setSuccess "", Event.setError "", Event.setTxHash "", Event.setTxType ""] ∧
    ((validateInputs w s).1 = false →
       ((handleMint ch w s).1.txHash = "" ∧ (handleMint ch w s).1.txType = "" ∧
        (handleMint ch w s).1.success = "" ∧ (handleMint ch w s).1.error ≠ "" ∧
        (handleMint ch w s).1.balance = s.balance ∧
        (handleMint ch w s).1.tokenDecimals = s.tokenDecimals ∧
        (handleMint ch w s).1.isLoadingBalance = s.isLoadingBalance) ∧
       ((handleClaim ch w s).1.txHash = "" ∧ (handleClaim ch w s).1.txType = "" ∧
        (handleClaim ch w s).1.success = "" ∧ (handleClaim ch w s).1.error ≠ "" ∧
        (handleClaim ch w s).1.balance = s.balance ∧
        (handleClaim ch w s).1.tokenDecimals = s.tokenDecimals ∧
        (handleClaim ch w s).1.isLoadingBalance = s.isLoadingBalance)) := by
  have hpre := validateInputs_preserves w
    { s with success := "", error := "", txHash := "", txType := "" }
  refine ⟨?_, ?_, fun h => ?_⟩
  · simp only [handleMint]
    repeat' split
    all_goals rfl
  · simp only [handleClaim]
    repeat' split
    all_goals rfl
  · have h0 : (validateInputs w
        { s with success := "", error := "", txHash := "", txType := "" }).1 = false := by
      rw [validateInputs_fst_clear]; exact h
    have herr := validateInputs_error_nonempty w
      { s with success := "", error := "", txHash := "", txType := "" } h0
    have hsm : (handleMint ch w s).1 =
        (validateInputs w
          { s with success := "", error := "", txHash := "", txType := "" }).2.1 := by
      simp [handleMint, h0]
    have hsc : (handleClaim ch w s).1 =
        (validateInputs w
          { s with success := "", error := "", txHash := "", txType := "" }).2.1 := by
      simp [handleClaim, h0]
    rw [hsm, hsc]
    refine ⟨⟨?_, ?_, ?_, herr, ?_, ?_, ?_⟩, ⟨?_, ?_, ?_, herr, ?_, ?_, ?_⟩⟩ <;>
      simp [hpre]

theorem handlers_clear_then_validate_witness :
    (validateInputs walletOn stateBad).1 = false ∧
    (handleMint chainOK walletOn stateBad).2.take 4 =
      [Event.setSuccess "", Event.setError "", Event.setTxHash "", Event.setTxType ""] ∧
    (handleMint chainOK walletOn stateBad).1.txHash = "" ∧
    (handleMint chainOK walletOn stateBad).1.success = "" ∧
    (handleMint chainOK walletOn stateBad).1.error ≠ "" ∧
    (handleMint chainOK walletOn stateBad).1.balance = stateBad.balance :=
  ⟨by decide,
   (handlers_clear_then_validate chainOK walletOn stateBad).1,
   (((handlers_clear_then_validate chainOK walletOn stateBad).2.2 (by decide)).1).1,
   (((handlers_clear_then_validate chainOK walletOn stateBad).2.2 (by decide)).1).2.2.1,
   (((handlers_clear_then_validate chainOK walletOn stateBad).2.2 (by decide)).1).2.2.2.1,
   (((handlers_clear_then_validate chainOK walletOn stateBad).2.2 (by decide)).1).2.2.2.2.1⟩

/-- C6 counterexample: with submission succeeding (hash 0xbead) and the
receipt wait failing, both flows reach the wait — its call is in the
trace — and terminate through their own catch and finally clauses,
setting the generic failure message and clearing the in-flight flag; the
wait failure is therefore handled inside the flow, not propagated out of
it, contrary to the claim. -/
theorem wait_failure_reaches_catch :
    Event.call (ChainCall.waitReceipt "0xbead") ∈
      (handleMint chainWaitFail walletOn stateA).2 ∧
    (handleMint chainWaitFail walletOn stateA).1.error = "Transaction fail" ∧
    (handleMint chainWaitFail walletOn stateA).1.isMinting = false ∧
    Event.call (ChainCall.waitReceipt "0xbead") ∈
      (handleClaim chainWaitFail walletOn stateA).2 ∧
    (handleClaim chainWaitFail walletOn stateA).1.error = "Transaction fail" ∧
    (handleClaim chainWaitFail walletOn stateA).1.isClaiming = false := by
  decide

/-- C6 amended: a failure of the post-submission confirmation wait is
caught by the submission flow's own try/catch: the flow ends with the
generic failure message set and the in-flight flag cleared, while the
transaction hash, type and success message recorded before the wait remain
in place — it does not escape the flow as an unhandled rejection. -/
theorem wait_failure_handled (ch : Chain) (w : Wallet) (s : AppState) (amt : Int)
    (hash : String) (hh : (hash == "") = false) (hw : ch.waitReceiptOk hash = false) :
    ((validateInputs w s).1 = true →
     parseUnits s.amount
       (if isZeroAddress s.tokenAddress then 18 else s.tokenDecimals) = some amt →
     ch.mintResult s.tokenAddress s.receiverAddress amt = some hash →
     (handleMint ch w s).1.error = "Transaction fail" ∧
     (handleMint ch w s).1.isMinting = false ∧
     (handleMint ch w s).1.txHash = hash ∧
     (handleMint ch w s).1.success = "Mint成功！") ∧
    ((validateInputs w s).1 = true →
     parseUnits s.amount
       (if isZeroAddress s.tokenAddress then 18 else s.tokenDecimals) = some amt →
     ch.claimResult s.tokenAddress s.receiverAddress amt = some hash →
     (handleClaim ch w s).1.error = "Transaction fail" ∧
     (handleClaim ch w s).1.isClaiming = false ∧
     (handleClaim ch w s).1.txHash = hash ∧
     (handleClaim ch w s).1.success = "Claim成功！") := by
  have hpre := validateInputs_preserves w
    { s with success := "", error := "", txHash := "", txType := "" }
  constructor
  · intro hval hp hm
    have h0 : (validateInputs w
        { s with success := "", error := "", txHash := "", txType := "" }).1 = true := by
      rw [validateInputs_fst_clear]; exact hval
    simp [handleMint, h0, hpre, hp, hm, hh, hw]
  · intro hval hp hm
    have h0 : (validateInputs w
        { s with success := "", error := "", txHash := "", txType := "" }).1 = true := by
      rw [validateInputs_fst_clear]; exact hval
    simp [handleClaim, h0, hpre, hp, hm, hh, hw]

theorem wait_failure_handled_witness :
    (validateInputs walletOn stateA).1 = true ∧
    (handleMint chainWaitFail walletOn stateA).1.error = "Transaction fail" ∧
    (handleMint chainWaitFail walletOn stateA).1.isMinting = false ∧
    (handleMint chainWaitFail walletOn stateA).1.txHash = "0xbead" ∧
    (handleMint chainWaitFail walletOn stateA).1.success = "Mint成功！" :=
  ⟨by decide,
   (wait_failure_handled chainWaitFail walletOn stateA 2500000 "0xbead"
     (by decide) rfl).1 (by decide) (by decide) rfl⟩
